import Mathlib

/-!
Verification of the Triton kernel-call decoding pipeline in
`torch_xla/csrc/triton/triton_utils.cpp`: the adaptive-buffer zlib
decompression loop `ZlibUncompress` and the two accessors
`GetTritonKernelCallName` and `GetTritonKernelCallSerializedMetadata`.

Byte sequences (C++ `std::string` contents) are modelled as `List Nat`.
The external zlib codec is abstracted as a function from the compressed
input and the destination capacity to a result: success carrying the
bytes it wrote, the buffer-too-small signal `Z_BUF_ERROR`, or any other
failure.  The external protobuf parser is abstracted as a partial
function from bytes to the parsed record.  The C++ `while (true)` loop
is fuel-indexed: `none` means the loop is still running after that many
iterations.  `absl::Status` is modelled as a code together with a
message, so that the error *kind* and the error *message* are kept
distinct, exactly as in absl.
-/

namespace TritonUtils

/-- Byte sequences, the contents of a C++ `std::string` or `string_view`. -/
abbrev Bytes := List Nat

/-- Result of one call to zlib `uncompress`: `Z_OK` carrying the bytes the
codec wrote into the destination buffer (their count is what `uncompress`
stores back into `dest_len`), `Z_BUF_ERROR`, or any other failure code. -/
inductive ZRet where
  | z_ok (written : Bytes)
  | z_buf_error
  | z_error
  deriving DecidableEq

/-- The external zlib codec, abstracted: compressed input and destination
capacity determine the outcome of one `uncompress` call. -/
abbrev Codec := Bytes → Nat → ZRet

/-- The subset of `absl::StatusCode` values relevant here. -/
inductive StatusCode where
  | ok
  | invalidArgument
  | unknown
  deriving DecidableEq

/-- `absl::Status`: an error code together with a message. -/
structure AbslStatus where
  code : StatusCode
  message : String
  deriving DecidableEq

/-- `absl::InvalidArgumentError(msg)`. -/
def invalidArgumentError (msg : String) : AbslStatus :=
  { code := StatusCode.invalidArgument, message := msg }

/-- C++ `std::string::resize(n)`: keep the first `n` bytes, zero-fill any
extension. -/
def listResize (l : Bytes) (n : Nat) : Bytes :=
  l.take n ++ List.replicate (n - l.length) 0

/-- The codec writing its output over the front of the destination buffer. -/
def writeBytes (buf w : Bytes) : Bytes :=
  w ++ buf.drop w.length

/-- `uLongf dest_len = 5 * compressed.size();` — the initial buffer-size
heuristic of `ZlibUncompress`. -/
def initialDestLen (compressed : Bytes) : Nat :=
  5 * compressed.length

/-- The `while (true)` loop of `ZlibUncompress`, fuel-indexed.  Each
iteration resizes `data` to `destLen`, calls the codec, and either returns
the buffer truncated to the written size (`Z_OK`), doubles `destLen` and
retries (`Z_BUF_ERROR`), or fails (`anything else`).  `none` means the loop
has not finished within `fuel` iterations. -/
def zlibUncompressAux (codec : Codec) (compressed : Bytes) :
    Nat → Bytes → Nat → Option (Except AbslStatus Bytes)
  | 0, _, _ => none
  | fuel + 1, data, destLen =>
    let buf := listResize data destLen
    match codec compressed destLen with
    | ZRet.z_ok written =>
        some (Except.ok (listResize (writeBytes buf written) written.length))
    | ZRet.z_buf_error =>
        zlibUncompressAux codec compressed fuel buf (destLen * 2)
    | ZRet.z_error =>
        some (Except.error (invalidArgumentError "Failed to uncompress opaque data."))

/-- `ZlibUncompress`: run the loop starting from the empty string and the
5x-input-length initial capacity. -/
def ZlibUncompress (codec : Codec) (compressed : Bytes) (fuel : Nat) :
    Option (Except AbslStatus Bytes) :=
  zlibUncompressAux codec compressed fuel [] (initialDestLen compressed)

/-- The `jax_triton::TritonAnyKernelCall` record, reduced to the two fields
this code reads. -/
structure TritonAnyKernelCall where
  name : Bytes
  metadata : Bytes
  deriving DecidableEq

/-- The external protobuf parser `proto.ParseFromString`, abstracted:
`none` models a parse failure. -/
abbrev ProtoParse := Bytes → Option TritonAnyKernelCall

/-- `GetTritonKernelCallName`: decompress, parse, project `proto.name()`.
Errors from either stage are returned as-is. -/
def GetTritonKernelCallName (codec : Codec) (parse : ProtoParse)
    (opq : Bytes) (fuel : Nat) : Option (Except AbslStatus Bytes) :=
  match ZlibUncompress codec opq fuel with
  | none => none
  | some (Except.error e) => some (Except.error e)
  | some (Except.ok serialized) =>
    match parse serialized with
    | none => some (Except.error (invalidArgumentError "Failed to parse serialized data."))
    | some proto => some (Except.ok proto.name)

/-- `GetTritonKernelCallSerializedMetadata`: the same pipeline, projecting
`proto.metadata()`. -/
def GetTritonKernelCallSerializedMetadata (codec : Codec) (parse : ProtoParse)
    (opq : Bytes) (fuel : Nat) : Option (Except AbslStatus Bytes) :=
  match ZlibUncompress codec opq fuel with
  | none => none
  | some (Except.error e) => some (Except.error e)
  | some (Except.ok serialized) =>
    match parse serialized with
    | none => some (Except.error (invalidArgumentError "Failed to parse serialized data."))
    | some proto => some (Except.ok proto.metadata)

/-- One call against the public surface of `triton_utils.cpp`. -/
inductive ApiCall where
  | uncompressCall (opq : Bytes)
  | nameCall (opq : Bytes)
  | metadataCall (opq : Bytes)
  deriving DecidableEq

/-- The result of one public call.  Each function reads nothing but its
argument (all state in the C++ bodies is local), so one call's outcome is a
function of that call alone. -/
def evalCall (codec : Codec) (parse : ProtoParse) (fuel : Nat) :
    ApiCall → Option (Except AbslStatus Bytes)
  | ApiCall.uncompressCall o => ZlibUncompress codec o fuel
  | ApiCall.nameCall o => GetTritonKernelCallName codec parse o fuel
  | ApiCall.metadataCall o => GetTritonKernelCallSerializedMetadata codec parse o fuel

/-- A sequence of public calls and their results, in order. -/
def runCalls (codec : Codec) (parse : ProtoParse) (fuel : Nat)
    (calls : List ApiCall) : List (Option (Except AbslStatus Bytes)) :=
  calls.map (evalCall codec parse fuel)

/-- Contract satisfied by zlib: one `uncompress` call never writes more
bytes than the destination capacity. -/
def CodecWrites (codec : Codec) : Prop :=
  ∀ c cap w, codec c cap = ZRet.z_ok w → w.length ≤ cap

/-- Behaviour of zlib on a valid stream `c` whose decompressed form is `w`:
success exactly when the capacity suffices, buffer-too-small otherwise. -/
def UncompressesTo (codec : Codec) (c w : Bytes) : Prop :=
  (∀ cap, w.length ≤ cap → codec c cap = ZRet.z_ok w) ∧
  (∀ cap, cap < w.length → codec c cap = ZRet.z_buf_error)

/-- Codec/compressor pair satisfying the round-trip contract of a
DEFLATE-family codec: compressed output is never empty, and decompression
of `compress b` behaves as a valid stream for `b`. -/
def RoundTripCodec (codec : Codec) (compress : Bytes → Bytes) : Prop :=
  ∀ b, 0 < (compress b).length ∧ UncompressesTo codec (compress b) b

/-- A codec that always reports buffer-too-small. -/
def badCodec : Codec := fun _ _ => ZRet.z_buf_error

/-- A codec that always reports a non-retriable failure. -/
def errCodec : Codec := fun _ _ => ZRet.z_error

/-- A codec whose decompression is the identity on bytes. -/
def idCodec : Codec := fun c cap =>
  if c.length ≤ cap then ZRet.z_ok c else ZRet.z_buf_error

/-- A codec decompressing every input to 21 bytes, forcing several growth
retries on short inputs. -/
def growCodec : Codec := fun _ cap =>
  if 21 ≤ cap then ZRet.z_ok (List.replicate 21 7) else ZRet.z_buf_error

/-- A codec decompressing every input (the empty one included) to 3 bytes. -/
def threeCodec : Codec := fun _ cap =>
  if 3 ≤ cap then ZRet.z_ok [5, 5, 5] else ZRet.z_buf_error

/-- A parser that rejects everything. -/
def parseNone : ProtoParse := fun _ => none

/-- The bytes of the string "kernel_x". -/
def kernelXBytes : Bytes := [107, 101, 114, 110, 101, 108, 95, 120]

/-- The bytes 0x00 0x01 followed by the string "binarydata". -/
def metadataBytes : Bytes := [0, 1, 98, 105, 110, 97, 114, 121, 100, 97, 116, 97]

/-- A parser accepting exactly the byte string `[42]`, producing the
`kernel_x` record. -/
def parseOne : ProtoParse := fun s =>
  if s = [42] then some { name := kernelXBytes, metadata := metadataBytes } else none

/-- A toy compressor: prepend one header byte. -/
def consCompress : Bytes → Bytes := fun b => 0 :: b

/-- The codec inverting `consCompress`: drop the header byte. -/
def consCodec : Codec := fun c cap =>
  if c.tail.length ≤ cap then ZRet.z_ok c.tail else ZRet.z_buf_error

/-- Truncating the written-over buffer to the written length recovers
exactly the bytes the codec wrote. -/
lemma listResize_writeBytes (buf w : Bytes) :
    listResize (writeBytes buf w) w.length = w := by
  unfold listResize writeBytes
  have h1 : (w ++ buf.drop w.length).take w.length = w := List.take_left w _
  have h2 : w.length ≤ (w ++ buf.drop w.length).length := by
    simp
  simp [h1, Nat.sub_eq_zero_of_le h2]

/-- Unfolding the loop body one iteration. -/
lemma zlibUncompressAux_succ (codec : Codec) (c data : Bytes) (d fuel : Nat) :
    zlibUncompressAux codec c (fuel + 1) data d =
      match codec c d with
      | ZRet.z_ok written =>
          some (Except.ok (listResize (writeBytes (listResize data d) written) written.length))
      | ZRet.z_buf_error =>
          zlibUncompressAux codec c fuel (listResize data d) (d * 2)
      | ZRet.z_error =>
          some (Except.error (invalidArgumentError "Failed to uncompress opaque data.")) := by
  rfl

/-- Inversion of a successful run: the returned bytes are exactly the bytes
the codec reported written at the capacity the loop reached. -/
lemma zlibUncompressAux_ok_inv (codec : Codec) (c : Bytes) :
    ∀ fuel data d out, zlibUncompressAux codec c fuel data d = some (Except.ok out) →
      ∃ cap w, codec c cap = ZRet.z_ok w ∧ out = w := by
  intro fuel
  induction fuel with
  | zero =>
    intro data d out h
    simp [zlibUncompressAux] at h
  | succ n ih =>
    intro data d out h
    rw [zlibUncompressAux_succ] at h
    cases hc : codec c d with
    | z_ok w =>
      rw [hc] at h
      simp only [Option.some.injEq, Except.ok.injEq] at h
      exact ⟨d, w, hc, by rw [← h, listResize_writeBytes]⟩
    | z_buf_error =>
      rw [hc] at h
      exact ih _ _ _ h
    | z_error =>
      rw [hc] at h
      simp at h

/-- If the codec behaves as a valid stream decompressing to `w`, then from
any positive capacity `d` with `w.length ≤ d * 2 ^ k` the loop succeeds
within `k + 1` iterations and returns exactly `w`. -/
lemma zlibUncompressAux_reaches_ok (codec : Codec) (c w : Bytes)
    (H : UncompressesTo codec c w) :
    ∀ k d data, w.length ≤ d * 2 ^ k →
      zlibUncompressAux codec c (k + 1) data d = some (Except.ok w) := by
  intro k
  induction k with
  | zero =>
    intro d data hk
    rw [zlibUncompressAux_succ, H.1 d (by simpa using hk)]
    simp [listResize_writeBytes]
  | succ n ih =>
    intro d data hk
    by_cases hd : w.length ≤ d
    · rw [zlibUncompressAux_succ, H.1 d hd]
      simp [listResize_writeBytes]
    · rw [zlibUncompressAux_succ, H.2 d (Nat.lt_of_not_le hd)]
      apply ih
      calc w.length ≤ d * 2 ^ (n + 1) := hk
        _ = d * 2 * 2 ^ n := by ring

/-- Termination of the growth loop from any positive starting capacity, for
a codec behaving as a valid stream. -/
lemma exists_fuel_ok (codec : Codec) (c w : Bytes) (H : UncompressesTo codec c w)
    (d : Nat) (hd : 0 < d) (data : Bytes) :
    ∃ fuel, zlibUncompressAux codec c fuel data d = some (Except.ok w) := by
  refine ⟨w.length + 1, zlibUncompressAux_reaches_ok codec c w H w.length d data ?_⟩
  calc w.length ≤ 2 ^ w.length := Nat.le_of_lt (Nat.lt_two_pow w.length)
    _ = 1 * 2 ^ w.length := (Nat.one_mul _).symm
    _ ≤ d * 2 ^ w.length := Nat.mul_le_mul_right _ hd

/-- At capacity 0 a buffer-too-small report loops forever: doubling 0
yields 0, so no fuel suffices. -/
lemma zlibUncompressAux_zero_cap (codec : Codec) (c : Bytes)
    (h : codec c 0 = ZRet.z_buf_error) :
    ∀ fuel data, zlibUncompressAux codec c fuel data 0 = none := by
  intro fuel
  induction fuel with
  | zero => intro data; rfl
  | succ n ih =>
    intro data
    rw [zlibUncompressAux_succ, h]
    exact ih _

lemma consCodec_roundtrip : RoundTripCodec consCodec consCompress := by
  intro b
  refine ⟨by simp [consCompress], ?_, ?_⟩
  · intro cap hcap
    simp [consCodec, consCompress, hcap]
  · intro cap hcap
    simp [consCodec, consCompress, Nat.not_le.mpr hcap]

lemma growCodec_writes : CodecWrites growCodec := by
  intro c cap w h
  unfold growCodec at h
  by_cases hc : 21 ≤ cap
  · rw [if_pos hc] at h
    cases h
    simpa using hc
  · rw [if_neg hc] at h
    cases h

lemma growCodec_uncompresses : UncompressesTo growCodec c (List.replicate 21 7) := by
  constructor
  · intro cap hcap
    simp only [List.length_replicate] at hcap
    simp [growCodec, hcap]
  · intro cap hcap
    simp only [List.length_replicate] at hcap
    simp [growCodec, Nat.not_le.mpr hcap]

lemma threeCodec_uncompresses : UncompressesTo threeCodec c [5, 5, 5] := by
  constructor
  · intro cap hcap
    simp only [List.length_cons, List.length_nil] at hcap
    simp [threeCodec, hcap]
  · intro cap hcap
    simp only [List.length_cons, List.length_nil] at hcap
    simp [threeCodec, Nat.not_le.mpr hcap]

/-- C1: whenever `ZlibUncompress` reports success, the returned bytes are
exactly the bytes the codec reported written at the capacity the loop
reached — the buffer is truncated to precisely the reported count, with no
truncation or partial read accepted, on every success path including runs
that went through growth retries. -/
theorem uncompress_success_exact (codec : Codec) (c out : Bytes) (fuel : Nat)
    (hW : CodecWrites codec)
    (h : ZlibUncompress codec c fuel = some (Except.ok out)) :
    ∃ cap w, codec c cap = ZRet.z_ok w ∧ out = w ∧ out.length ≤ cap := by
  obtain ⟨cap, w, hc, ho⟩ :=
    zlibUncompressAux_ok_inv codec c fuel [] (initialDestLen c) out h
  exact ⟨cap, w, hc, ho, by rw [ho]; exact hW c cap w hc⟩

/-- Witness for C1 at a run forcing three growth retries: the initial
capacity 5 and its first two doublings are all too small, yet the accepted
result is byte-exact. -/
theorem uncompress_success_exact_witness :
    growCodec [1] (initialDestLen [1]) = ZRet.z_buf_error ∧
    growCodec [1] (initialDestLen [1] * 2) = ZRet.z_buf_error ∧
    growCodec [1] (initialDestLen [1] * 2 * 2) = ZRet.z_buf_error ∧
    ZlibUncompress growCodec [1] 5 = some (Except.ok (List.replicate 21 7)) ∧
    ∃ cap w, growCodec [1] cap = ZRet.z_ok w ∧ (List.replicate 21 7 : Bytes) = w ∧
      (List.replicate 21 7 : Bytes).length ≤ cap :=
  ⟨rfl, rfl, rfl, rfl,
   uncompress_success_exact growCodec [1] (List.replicate 21 7) 5 growCodec_writes rfl⟩

/-- C2: when decompression succeeds and the decompressed bytes parse, the
two accessors project exactly the record fields `name` and `metadata`,
independent of call order and with no cross-contamination between calls. -/
theorem accessors_project_fields (codec : Codec) (parse : ProtoParse)
    (opq s : Bytes) (r : TritonAnyKernelCall) (fuel : Nat)
    (h1 : ZlibUncompress codec opq fuel = some (Except.ok s))
    (h2 : parse s = some r) :
    GetTritonKernelCallName codec parse opq fuel = some (Except.ok r.name) ∧
    GetTritonKernelCallSerializedMetadata codec parse opq fuel = some (Except.ok r.metadata) ∧
    runCalls codec parse fuel [ApiCall.nameCall opq, ApiCall.metadataCall opq] =
      [some (Except.ok r.name), some (Except.ok r.metadata)] ∧
    runCalls codec parse fuel [ApiCall.metadataCall opq, ApiCall.nameCall opq] =
      [some (Except.ok r.metadata), some (Except.ok r.name)] := by
  have hn : GetTritonKernelCallName codec parse opq fuel = some (Except.ok r.name) := by
    simp [GetTritonKernelCallName, h1, h2]
  have hm : GetTritonKernelCallSerializedMetadata codec parse opq fuel =
      some (Except.ok r.metadata) := by
    simp [GetTritonKernelCallSerializedMetadata, h1, h2]
  exact ⟨hn, hm, by simp [runCalls, evalCall, hn, hm], by simp [runCalls, evalCall, hn, hm]⟩

/-- Witness for C2 at the record `name = "kernel_x"`,
`metadata = 0x00 0x01 "binarydata"`. -/
theorem accessors_project_fields_witness :
    GetTritonKernelCallName idCodec parseOne [42] 1 = some (Except.ok kernelXBytes) ∧
    GetTritonKernelCallSerializedMetadata idCodec parseOne [42] 1 =
      some (Except.ok metadataBytes) ∧
    runCalls idCodec parseOne 1 [ApiCall.nameCall [42], ApiCall.metadataCall [42]] =
      [some (Except.ok kernelXBytes), some (Except.ok metadataBytes)] ∧
    runCalls idCodec parseOne 1 [ApiCall.metadataCall [42], ApiCall.nameCall [42]] =
      [some (Except.ok metadataBytes), some (Except.ok kernelXBytes)] :=
  accessors_project_fields idCodec parseOne [42] [42]
    { name := kernelXBytes, metadata := metadataBytes } 1 rfl rfl

/-- C3: whenever the codec reports a failure other than buffer-too-small,
the loop stops at that very iteration and returns the
`InvalidArgument` error "Failed to uncompress opaque data."; the result is
reached with one iteration of fuel and is independent of any further fuel,
so no retry happens on this path. -/
theorem uncompress_error_no_retry (codec : Codec) (c : Bytes) :
    (∀ data d fuel, codec c d = ZRet.z_error →
      zlibUncompressAux codec c (fuel + 1) data d =
        some (Except.error (invalidArgumentError "Failed to uncompress opaque data."))) ∧
    (codec c (initialDestLen c) = ZRet.z_error →
      ∀ fuel, ZlibUncompress codec c (fuel + 1) =
        some (Except.error (invalidArgumentError "Failed to uncompress opaque data."))) := by
  constructor
  · intro data d fuel h
    rw [zlibUncompressAux_succ, h]
  · intro h fuel
    unfold ZlibUncompress
    rw [zlibUncompressAux_succ, h]

/-- Witness for C3: a codec reporting corruption makes the loop fail at
once, with a single iteration of fuel. -/
theorem uncompress_error_no_retry_witness :
    zlibUncompressAux errCodec [1, 2] 1 [] 10 =
      some (Except.error (invalidArgumentError "Failed to uncompress opaque data.")) ∧
    ZlibUncompress errCodec [1, 2] 1 =
      some (Except.error (invalidArgumentError "Failed to uncompress opaque data.")) :=
  ⟨(uncompress_error_no_retry errCodec [1, 2]).1 [] 10 0 rfl,
   (uncompress_error_no_retry errCodec [1, 2]).2 rfl 0⟩

/-- C4 counterexample: on the empty input the buffer size is 0, a
buffer-too-small report does trigger a retry, yet doubling leaves the size
at 0 and the loop makes no progress — the claimed strict increase on every
input fails. -/
theorem growth_not_increasing_on_empty :
    badCodec [] (initialDestLen []) = ZRet.z_buf_error ∧
    initialDestLen ([] : Bytes) * 2 = initialDestLen ([] : Bytes) ∧
    ZlibUncompress badCodec [] 30 = none :=
  ⟨rfl, rfl, rfl⟩

/-- C4 (amended): on buffer-too-small the size is doubled and the attempt
repeated; the doubling strictly increases the size whenever it is positive
— which the 5x initial size is for every nonempty input — and for every
nonempty input whose stream the codec can decompress the loop terminates
with the decompressed bytes.  (For the empty input the size is 0 and
doubling leaves it 0.) -/
theorem growth_doubles_and_terminates (codec : Codec) (c w data : Bytes) (d fuel : Nat) :
    (codec c d = ZRet.z_buf_error →
      zlibUncompressAux codec c (fuel + 1) data d =
        zlibUncompressAux codec c fuel (listResize data d) (d * 2)) ∧
    (0 < d → d < d * 2) ∧
    (c ≠ [] → 0 < initialDestLen c) ∧
    (UncompressesTo codec c w → c ≠ [] →
      ∃ f, ZlibUncompress codec c f = some (Except.ok w)) := by
  have hpos : c ≠ [] → 0 < initialDestLen c := by
    intro hc
    unfold initialDestLen
    have : 0 < c.length := List.length_pos.mpr hc
    omega
  refine ⟨?_, ?_, hpos, ?_⟩
  · intro h
    rw [zlibUncompressAux_succ, h]
  · intro h
    omega
  · intro H hc
    exact exists_fuel_ok codec c w H (initialDestLen c) (hpos hc) []

/-- Witness for the amended C4: a concrete buffer-too-small report doubles
the size, 5 < 10, the nonempty input [1] has positive initial size, and the
loop terminates with the 21-byte payload. -/
theorem growth_doubles_and_terminates_witness :
    zlibUncompressAux growCodec [1] 1 [] 5 =
      zlibUncompressAux growCodec [1] 0 (listResize [] 5) (5 * 2) ∧
    (5 : Nat) < 5 * 2 ∧
    0 < initialDestLen [1] ∧
    ∃ f, ZlibUncompress growCodec [1] f = some (Except.ok (List.replicate 21 7)) := by
  obtain h := growth_doubles_and_terminates growCodec [1] (List.replicate 21 7) [] 5 0
  exact ⟨h.1 rfl, h.2.1 (by decide), h.2.2.1 (by decide),
    h.2.2.2 growCodec_uncompresses (by decide)⟩

/-- C5 counterexample: when decompression succeeds but parsing fails, the
error returned by both accessors carries the very same status code as the
decompression-failure error — `absl::StatusCode::kInvalidArgument` — so it
is not an error kind distinct from the one used for decompression failure;
only the message differs. -/
theorem parse_failure_same_kind :
    GetTritonKernelCallName idCodec parseNone [1, 2, 3] 1 =
      some (Except.error (invalidArgumentError "Failed to parse serialized data.")) ∧
    GetTritonKernelCallSerializedMetadata idCodec parseNone [1, 2, 3] 1 =
      some (Except.error (invalidArgumentError "Failed to parse serialized data.")) ∧
    (invalidArgumentError "Failed to parse serialized data.").code =
      (invalidArgumentError "Failed to uncompress opaque data.").code :=
  ⟨rfl, rfl, rfl⟩

/-- C5 (amended): when decompression succeeds but the bytes do not parse,
both accessors fail with an `InvalidArgument`-kind error carrying the
message "Failed to parse serialized data." — the same status kind as the
decompression failure, distinguished only by its message. -/
theorem parse_failure_invalid_argument (codec : Codec) (parse : ProtoParse)
    (opq s : Bytes) (fuel : Nat)
    (h1 : ZlibUncompress codec opq fuel = some (Except.ok s))
    (h2 : parse s = none) :
    GetTritonKernelCallName codec parse opq fuel =
      some (Except.error (invalidArgumentError "Failed to parse serialized data.")) ∧
    GetTritonKernelCallSerializedMetadata codec parse opq fuel =
      some (Except.error (invalidArgumentError "Failed to parse serialized data.")) ∧
    (invalidArgumentError "Failed to parse serialized data.").code =
      StatusCode.invalidArgument := by
  refine ⟨?_, ?_, rfl⟩
  · simp [GetTritonKernelCallName, h1, h2]
  · simp [GetTritonKernelCallSerializedMetadata, h1, h2]

/-- Witness for the amended C5 at a concrete unparseable payload. -/
theorem parse_failure_invalid_argument_witness :
    GetTritonKernelCallName idCodec parseNone [9] 1 =
      some (Except.error (invalidArgumentError "Failed to parse serialized data.")) ∧
    GetTritonKernelCallSerializedMetadata idCodec parseNone [9] 1 =
      some (Except.error (invalidArgumentError "Failed to parse serialized data.")) ∧
    (invalidArgumentError "Failed to parse serialized data.").code =
      StatusCode.invalidArgument :=
  parse_failure_invalid_argument idCodec parseNone [9] [9] 1 rfl rfl

/-- C6: each accessor returns the first error of the pipeline verbatim —
a decompression error is passed through unchanged, and a parse failure
produces exactly the parse error — with no retry at the accessor level. -/
theorem accessors_propagate_first_error (codec : Codec) (parse : ProtoParse)
    (opq : Bytes) (fuel : Nat) :
    (∀ e, ZlibUncompress codec opq fuel = some (Except.error e) →
      GetTritonKernelCallName codec parse opq fuel = some (Except.error e) ∧
      GetTritonKernelCallSerializedMetadata codec parse opq fuel = some (Except.error e)) ∧
    (∀ s, ZlibUncompress codec opq fuel = some (Except.ok s) → parse s = none →
      GetTritonKernelCallName codec parse opq fuel =
        some (Except.error (invalidArgumentError "Failed to parse serialized data.")) ∧
      GetTritonKernelCallSerializedMetadata codec parse opq fuel =
        some (Except.error (invalidArgumentError "Failed to parse serialized data."))) := by
  constructor
  · intro e h
    constructor
    · simp [GetTritonKernelCallName, h]
    · simp [GetTritonKernelCallSerializedMetadata, h]
  · intro s h1 h2
    constructor
    · simp [GetTritonKernelCallName, h1, h2]
    · simp [GetTritonKernelCallSerializedMetadata, h1, h2]

/-- Witness for C6: a corrupt stream's error comes through both accessors
verbatim, and a parse failure yields exactly the parse error. -/
theorem accessors_propagate_first_error_witness :
    GetTritonKernelCallName errCodec parseNone [3] 2 =
      some (Except.error (invalidArgumentError "Failed to uncompress opaque data.")) ∧
    GetTritonKernelCallSerializedMetadata errCodec parseNone [3] 2 =
      some (Except.error (invalidArgumentError "Failed to uncompress opaque data.")) ∧
    GetTritonKernelCallName idCodec parseNone [3] 2 =
      some (Except.error (invalidArgumentError "Failed to parse serialized data.")) ∧
    GetTritonKernelCallSerializedMetadata idCodec parseNone [3] 2 =
      some (Except.error (invalidArgumentError "Failed to parse serialized data.")) := by
  obtain h1 := (accessors_propagate_first_error errCodec parseNone [3] 2).1
    (invalidArgumentError "Failed to uncompress opaque data.") rfl
  obtain h2 := (accessors_propagate_first_error idCodec parseNone [3] 2).2 [3] rfl rfl
  exact ⟨h1.1, h1.2, h2.1, h2.2⟩

/-- C7 counterexample: on the empty input the 5x heuristic gives size
5 * 0 = 0, which is not positive, and the initial size does affect
correctness, not only retry count: with a codec that decompresses the empty
input to 3 bytes, the loop starting from the code's size 0 never finishes,
while starting from the positive size 1 it succeeds. -/
theorem heuristic_size_zero_on_empty :
    initialDestLen ([] : Bytes) = 0 ∧
    ZlibUncompress threeCodec [] 6 = none ∧
    zlibUncompressAux threeCodec [] 6 [] 1 = some (Except.ok [5, 5, 5]) :=
  ⟨rfl, rfl, rfl⟩

/-- C7 (amended): the first decompression attempt always uses a buffer of
exactly 5 times the input length; for every nonempty input that size is
positive, and from any positive initial size the loop reaches the same
correct result, the size affecting only the number of retries.  (For the
empty input the size is 5 * 0 = 0, which is not positive.) -/
theorem initial_size_heuristic (codec : Codec) (c w : Bytes) (fuel d : Nat) :
    (ZlibUncompress codec c (fuel + 1) =
      match codec c (5 * c.length) with
      | ZRet.z_ok written =>
          some (Except.ok
            (listResize (writeBytes (listResize [] (5 * c.length)) written) written.length))
      | ZRet.z_buf_error =>
          zlibUncompressAux codec c fuel (listResize [] (5 * c.length)) (5 * c.length * 2)
      | ZRet.z_error =>
          some (Except.error (invalidArgumentError "Failed to uncompress opaque data."))) ∧
    initialDestLen c = 5 * c.length ∧
    (c ≠ [] → 0 < initialDestLen c) ∧
    (UncompressesTo codec c w → 0 < d →
      ∃ f, zlibUncompressAux codec c f [] d = some (Except.ok w)) := by
  refine ⟨rfl, rfl, ?_, ?_⟩
  · intro hc
    unfold initialDestLen
    have : 0 < c.length := List.length_pos.mpr hc
    omega
  · intro H hd
    exact exists_fuel_ok codec c w H d hd []

/-- Witness for the amended C7: the nonempty input [1] has positive initial
size, and from the positive size 2 the loop reaches the correct 3-byte
result. -/
theorem initial_size_heuristic_witness :
    0 < initialDestLen [1] ∧
    ∃ f, zlibUncompressAux threeCodec [1] f [] 2 = some (Except.ok [5, 5, 5]) :=
  ⟨(initial_size_heuristic threeCodec [1] [5, 5, 5] 0 2).2.2.1 (by decide),
   (initial_size_heuristic threeCodec [1] [5, 5, 5] 0 2).2.2.2
     threeCodec_uncompresses (by decide)⟩

/-- C8: the three public functions are pure and deterministic.  All state
in their C++ bodies is local, so in a sequence of calls each call's result
is a function of that call alone: surrounding calls never change it, and
repeating one call yields the identical result twice. -/
theorem accessors_pure_deterministic (codec : Codec) (parse : ProtoParse) (fuel : Nat)
    (pre post : List ApiCall) (call : ApiCall) :
    runCalls codec parse fuel (pre ++ call :: post) =
      runCalls codec parse fuel pre ++
        evalCall codec parse fuel call :: runCalls codec parse fuel post ∧
    runCalls codec parse fuel [call, call] =
      [evalCall codec parse fuel call, evalCall codec parse fuel call] := by
  constructor
  · simp [runCalls]
  · rfl

/-- C9: for every byte sequence `b` (the empty one included), decompressing
the codec's compression of `b` succeeds and returns `b` byte for byte, for
any codec/compressor pair satisfying the round-trip codec contract. -/
theorem decompress_compress_roundtrip (codec : Codec) (compress : Bytes → Bytes)
    (H : RoundTripCodec codec compress) (b : Bytes) :
    ∃ fuel, ZlibUncompress codec (compress b) fuel = some (Except.ok b) := by
  obtain ⟨hlen, hstream⟩ := H b
  refine exists_fuel_ok codec (compress b) b hstream (initialDestLen (compress b)) ?_ []
  unfold initialDestLen
  omega

/-- Witness for C9 at a concrete round-tripping pair and the payload
[9, 8]; the empty payload is exercised too. -/
theorem decompress_compress_roundtrip_witness :
    (∃ fuel, ZlibUncompress consCodec (consCompress [9, 8]) fuel =
      some (Except.ok [9, 8])) ∧
    ∃ fuel, ZlibUncompress consCodec (consCompress []) fuel =
      some (Except.ok ([] : Bytes)) :=
  ⟨decompress_compress_roundtrip consCodec consCompress consCodec_roundtrip [9, 8],
   decompress_compress_roundtrip consCodec consCompress consCodec_roundtrip []⟩

/-- C10: on the empty input the initial buffer size is 5 * 0 = 0, doubling
leaves it at 0, and under any codec that reports buffer-too-small for a
zero-length buffer on the empty input the retry loop never terminates: no
amount of fuel produces a result. -/
theorem empty_input_zero_buffer (codec : Codec)
    (h : codec [] 0 = ZRet.z_buf_error) :
    initialDestLen ([] : Bytes) = 0 ∧
    initialDestLen ([] : Bytes) * 2 = initialDestLen ([] : Bytes) ∧
    (∀ fuel data, zlibUncompressAux codec [] fuel data 0 = none) ∧
    (∀ fuel, ZlibUncompress codec [] fuel = none) := by
  refine ⟨rfl, rfl, zlibUncompressAux_zero_cap codec [] h, ?_⟩
  intro fuel
  exact zlibUncompressAux_zero_cap codec [] h fuel []

/-- Witness for C10 at the always-buffer-too-small codec and fuel 7. -/
theorem empty_input_zero_buffer_witness :
    initialDestLen ([] : Bytes) = 0 ∧ ZlibUncompress badCodec [] 7 = none :=
  ⟨(empty_input_zero_buffer badCodec rfl).1,
   (empty_input_zero_buffer badCodec rfl).2.2.2 7⟩

end TritonUtils
